import Mathlib

/-!
Verification of the frame-fence synchronization core of a minimal D3D12
tutorial program (src/D3D12-Tutorial/main.cpp), shallowly embedded in Lean.

The embedded operations are `Signal`, `WaitForFenceValue`, `Flush` and
`ParseCommandLineArgs`, translated from the source.  The GPU consumer is
modelled by an oracle: the completion value the consumer has reached at the
moment the OS-level wait would return.  OS-level effects (registration of the
fence event, the blocking call) are recorded in an observation record, since
the C++ return types do not expose them.
-/

/-- Modulus of the C++ `uint64_t` type used for `g_FenceValue`. -/
def UINT64_MOD : Nat := 2 ^ 64

/-- Modulus of the Win32 `DWORD` (`uint32_t`) type. -/
def DWORD_MOD : Nat := 2 ^ 32

/-- The Win32 `INFINITE` sentinel, `0xFFFFFFFF`. -/
def INFINITE : Nat := DWORD_MOD - 1

/-- The C++ `static_cast<DWORD>` applied to a signed 64-bit value:
reduction modulo 2^32 (well-defined modular conversion in C++). -/
def dwordCast (x : Int) : Nat := (x % (DWORD_MOD : Int)).toNat

/-- The count of `std::chrono::milliseconds::max()`: the representation type
is a signed 64-bit integer on the target platform (MSVC), so the count is
2^63 - 1.  This is the default `duration` argument of `WaitForFenceValue`. -/
def msMax : Int := 2 ^ 63 - 1

/-- The fence-related mutable state of the program: `fenceValue` is the CPU
counter `g_FenceValue` (a `uint64_t`), `completedValue` is the value the GPU
fence currently reports via `fence->GetCompletedValue()`. -/
structure FenceState where
  fenceValue : Nat
  completedValue : Nat
deriving DecidableEq, Repr

/-- Outcome of a call to `WaitForFenceValue`, at the level of OS effects:
returned without any OS wait, returned because the fence event fired,
returned because `WaitForSingleObject` timed out, or never returned (an
infinite-timeout wait on a value the consumer never reaches). -/
inductive WaitOutcome where
  | immediate
  | signaled
  | timedOut
  | neverReturns
deriving DecidableEq, Repr

/-- Observation record of one `WaitForFenceValue` call: the value passed to
`fence->SetEventOnCompletion` if it was called, whether
`::WaitForSingleObject` was called, and the outcome.  None of this is visible
in the C++ return value (the function returns `void`). -/
structure WaitObs where
  registeredTarget : Option Nat
  blocked : Bool
  outcome : WaitOutcome
deriving DecidableEq, Repr

/-- Translation of `Signal` (main.cpp:533-540):
`uint64_t fenceValueForSignal = ++fenceValue;` then
`commandQueue->Signal(fence, fenceValueForSignal)` and return the new value.
The pre-increment on a `uint64_t` is addition of 1 modulo 2^64.  The GPU-side
effect (the enqueued signal) is asynchronous and is represented by the
consumer oracle of `WaitForFenceValue`. -/
def Signal (s : FenceState) : Nat × FenceState :=
  let fenceValueForSignal := (s.fenceValue + 1) % UINT64_MOD
  (fenceValueForSignal, { s with fenceValue := fenceValueForSignal })

/-- Translation of `WaitForFenceValue` (main.cpp:544-553):
if `fence->GetCompletedValue() < fenceValue` then register the event with
`SetEventOnCompletion(fenceValue, fenceEvent)` and call
`WaitForSingleObject(fenceEvent, static_cast<DWORD>(duration.count()))`;
otherwise return at once.  `gpuAtReturn` is the consumer oracle: the
completion value the GPU has reached by the moment the OS wait returns (for a
finite timeout, at the latest when the timeout elapses).  When the timeout is
the `INFINITE` sentinel and the consumer never reaches the target, the call
never returns, represented by a `none` result state. -/
def WaitForFenceValue (s : FenceState) (fenceValue : Nat) (gpuAtReturn : Nat)
    (durationMs : Int := msMax) : WaitObs × Option FenceState :=
  if s.completedValue < fenceValue then
    if fenceValue ≤ gpuAtReturn then
      (⟨some fenceValue, true, WaitOutcome.signaled⟩,
        some { s with completedValue := gpuAtReturn })
    else if dwordCast durationMs = INFINITE then
      (⟨some fenceValue, true, WaitOutcome.neverReturns⟩, none)
    else
      (⟨some fenceValue, true, WaitOutcome.timedOut⟩,
        some { s with completedValue := gpuAtReturn })
  else
    (⟨none, false, WaitOutcome.immediate⟩, some s)

/-- The caller-visible result of a `WaitForFenceValue` call: the C++ function
returns `void`, so the caller observes only that the call returned (`some ()`)
or that it never returned (`none`); the result of `WaitForSingleObject`
(`WAIT_OBJECT_0` vs `WAIT_TIMEOUT`) is discarded by the code. -/
def waitCallerVisible (s : FenceState) (fenceValue : Nat) (gpuAtReturn : Nat)
    (durationMs : Int) : Option Unit :=
  ((WaitForFenceValue s fenceValue gpuAtReturn durationMs).2).map fun _ => ()

/-- Translation of `Flush` (main.cpp:558-563):
`uint64_t fenceValueForSignal = Signal(...); WaitForFenceValue(fence,
fenceValueForSignal, fenceEvent);` — the wait uses the default duration. -/
def Flush (s : FenceState) (gpuAtReturn : Nat) : WaitObs × Option FenceState :=
  let fenceValueForSignal := Signal s
  WaitForFenceValue fenceValueForSignal.2 fenceValueForSignal.1 gpuAtReturn

/-- Spec-side definition of `flush` following the spec's words (§4.1):
"Effect: `wait(signal())`" — the wait is applied to the state after the
signal, at the exact value the signal returned, with the default timeout. -/
def flushSpec (s : FenceState) (gpuAtReturn : Nat) : WaitObs × Option FenceState :=
  WaitForFenceValue (Signal s).2 (Signal s).1 gpuAtReturn

/-- The Win32 `FAILED` macro on an `HRESULT`: failure is a negative value. -/
def FAILED (hr : Int) : Bool := decide (hr < 0)

/-- Modelled from the spec: `ThrowIfFailed` lives in `Helpers.h`, which is not
under src/ (only its callers are).  Per §9 of the spec, every call in the
source is wrapped in `ThrowIfFailed`, abstracted as "fails with DeviceError":
it raises the failing `HRESULT` as an exception when `FAILED(hr)` holds and is
a no-op otherwise. -/
def ThrowIfFailed (hr : Int) : Except Int Unit :=
  if FAILED hr then Except.error hr else Except.ok ()

/-- Translation of `Signal` with its fallible call made explicit: `hrSignal`
is the `HRESULT` returned by `commandQueue->Signal`.  The counter is
pre-incremented before the call, so the incremented state is produced even on
the error path; on failure the error propagates and no value is returned. -/
def SignalChecked (s : FenceState) (hrSignal : Int) : FenceState × Except Int Nat :=
  let fenceValueForSignal := (s.fenceValue + 1) % UINT64_MOD
  let s' := { s with fenceValue := fenceValueForSignal }
  match ThrowIfFailed hrSignal with
  | Except.error hr => (s', Except.error hr)
  | Except.ok () => (s', Except.ok fenceValueForSignal)

/-- Translation of `WaitForFenceValue` with its fallible call made explicit:
`hrSetEvent` is the `HRESULT` of `fence->SetEventOnCompletion`, which is only
invoked on the blocking path; on failure the error propagates before the OS
wait is entered. -/
def WaitForFenceValueChecked (s : FenceState) (fenceValue : Nat) (hrSetEvent : Int)
    (gpuAtReturn : Nat) (durationMs : Int := msMax) :
    Except Int (WaitObs × Option FenceState) :=
  if s.completedValue < fenceValue then
    match ThrowIfFailed hrSetEvent with
    | Except.error hr => Except.error hr
    | Except.ok () => Except.ok (WaitForFenceValue s fenceValue gpuAtReturn durationMs)
  else
    Except.ok (WaitForFenceValue s fenceValue gpuAtReturn durationMs)

/-- The number of swap chain back buffers, `g_NumFrames` (main.cpp:46). -/
def g_NumFrames : Nat := 3

/-- The configuration globals written by `ParseCommandLineArgs`
(main.cpp:50-54): `g_ClientWidth` and `g_ClientHeight` are `uint32_t`,
`g_UseWARP` a bool. -/
structure Config where
  g_ClientWidth : Nat
  g_ClientHeight : Nat
  g_UseWARP : Bool
deriving DecidableEq, Repr

/-- Initial values of the configuration globals (main.cpp:50-54). -/
def initialConfig : Config :=
  { g_ClientWidth := 1024, g_ClientHeight := 768, g_UseWARP := false }

/-- The empty wide string; used for the C array access `argv[i]`, which the
model renders as `List.getD` with this default (an out-of-range access in the
C code matches no option string and parses as 0). -/
def emptyStr : String := ""

/-- Conversion of the C `long` result of `wcstol` (32-bit on the target
platform) to the `uint32_t` globals: reduction modulo 2^32. -/
def toUInt32Wrap (x : Int) : Nat := (x % (DWORD_MOD : Int)).toNat

/-- The C `LONG_MAX` for a 32-bit `long`. -/
def LONG_MAX : Int := 2 ^ 31 - 1

/-- The C `LONG_MIN` for a 32-bit `long`. -/
def LONG_MIN : Int := -(2 ^ 31)

/-- Translation of `::wcstol(s, nullptr, 10)`: skip leading whitespace, accept
an optional sign, read a maximal run of decimal digits (0 when there is
none), clamping to the `long` range on overflow. -/
def wcstol10 (s : String) : Int :=
  let cs := s.toList.dropWhile fun ch => ch = ' ' ∨ ch = '\t' ∨ ch = '\n' ∨ ch = '\r'
  let signed : Bool × List Char :=
    match cs with
    | '-' :: rest => (true, rest)
    | '+' :: rest => (false, rest)
    | _ => (false, cs)
  let n : Nat :=
    (signed.2.takeWhile Char.isDigit).foldl (fun acc ch => acc * 10 + (ch.toNat - 48)) 0
  let v : Int := if signed.1 then -(n : Int) else (n : Int)
  max LONG_MIN (min LONG_MAX v)

/-- One body of the `for` loop of `ParseCommandLineArgs` (main.cpp:107-121),
starting at index `i`; returns the index after the body (before the loop's
own `i++`) and the updated configuration.  The three `if`s are sequential,
not `else if`, and the first two mutate `i` via `argv[++i]`, so a later `if`
compares the argument consumed by an earlier one — the model preserves this.
The `-h`/`--height` branch assigns `g_ClientWidth` (main.cpp:115), exactly as
the source does.  The body is the composition of the three `if`s below; each
takes and returns the pair (index, configuration).  This first one is the
`-w`/`--width` `if` (main.cpp:109-112). -/
def parseStepW (argv : List String) (p : Nat × Config) : Nat × Config :=
  if argv.getD p.1 emptyStr = "-w" ∨ argv.getD p.1 emptyStr = "--width" then
    (p.1 + 1,
      { p.2 with g_ClientWidth := toUInt32Wrap (wcstol10 (argv.getD (p.1 + 1) emptyStr)) })
  else p

/-- The second `if` of the loop body (main.cpp:113-116): on `-h`/`--height`
the source assigns `g_ClientWidth`, not `g_ClientHeight`. -/
def parseStepH (argv : List String) (p : Nat × Config) : Nat × Config :=
  if argv.getD p.1 emptyStr = "-h" ∨ argv.getD p.1 emptyStr = "--height" then
    (p.1 + 1,
      { p.2 with g_ClientWidth := toUInt32Wrap (wcstol10 (argv.getD (p.1 + 1) emptyStr)) })
  else p

/-- The third `if` of the loop body (main.cpp:117-120). -/
def parseStepWarp (argv : List String) (p : Nat × Config) : Nat × Config :=
  if argv.getD p.1 emptyStr = "-warp" ∨ argv.getD p.1 emptyStr = "--warp" then
    (p.1, { p.2 with g_UseWARP := true })
  else p

def parseStep (argv : List String) (i : Nat) (c : Config) : Nat × Config :=
  parseStepWarp argv (parseStepH argv (parseStepW argv (i, c)))

/-- The `for (size_t i = 0; i < argc; i++)` loop of `ParseCommandLineArgs`,
with explicit fuel (the index strictly increases each iteration, so
`argv.length + 1` units of fuel always suffice). -/
def parseLoopAux : Nat → List String → Nat → Config → Config
  | 0, _, _, c => c
  | fuel + 1, argv, i, c =>
    if i < argv.length then
      let r := parseStep argv i c
      parseLoopAux fuel argv (r.1 + 1) r.2
    else c

/-- Translation of `ParseCommandLineArgs` (main.cpp:103-125), applied to the
argument list obtained from `CommandLineToArgvW`. -/
def ParseCommandLineArgs (argv : List String) : Config :=
  parseLoopAux (argv.length + 1) argv 0 initialConfig

/-- State of the spec-modelled render loop: the current frame slot
(`g_CurrentBackBufferIndex`), the per-slot signalled values
(`g_FrameFenceValues`, main.cpp:88), the fence state, and traces of the slots
used and the wait targets of each iteration. -/
structure LoopState where
  slot : Nat
  frameFenceValues : List Nat
  fence : FenceState
  slotsUsed : List Nat
  waitTargets : List Nat
deriving DecidableEq, Repr

/-- Modelled from the spec: one iteration of the render loop — the loop body
(`Render`/`WinMain`) is not under src/, only the globals it uses are
(main.cpp:46, 82, 86-88).  Per §4.1 of the spec the order is strict:
(1) advance the slot by `(currentSlot + 1) mod N`, (2) wait on that slot's
stored target value, (3) record new work, (4) `signal()`, (5) store the
returned value as the slot's new target.  The wait is modelled with the
minimal consumer progress that satisfies it (the completed value reaches the
target). -/
def renderIteration (st : LoopState) : LoopState :=
  let slot := (st.slot + 1) % g_NumFrames
  let target := st.frameFenceValues.getD slot 0
  let fenceAfterWait :=
    { st.fence with completedValue := max st.fence.completedValue target }
  let r := Signal fenceAfterWait
  { slot := slot
    frameFenceValues := st.frameFenceValues.set slot r.1
    fence := r.2
    slotsUsed := st.slotsUsed ++ [slot]
    waitTargets := st.waitTargets ++ [target] }

/-- Modelled from the spec: the initial render-loop state — fence created at
0 (main.cpp:508), `g_FrameFenceValues` zero-initialised (main.cpp:88), and
the slot positioned so that the first advance of `(slot + 1) mod N` lands on
slot 0, matching the spec's iteration numbering (iteration 0 uses slot 0). -/
def initLoop : LoopState :=
  { slot := g_NumFrames - 1
    frameFenceValues := List.replicate g_NumFrames 0
    fence := { fenceValue := 0, completedValue := 0 }
    slotsUsed := []
    waitTargets := [] }

/-- The render-loop state after `k` iterations from `initLoop`. -/
def runRenderLoop : Nat → LoopState
  | 0 => initLoop
  | k + 1 => renderIteration (runRenderLoop k)

/-! Helper lemmas shared by the claim theorems. -/

theorem dwordCast_msMax : dwordCast msMax = INFINITE := by decide

theorem wait_state_cases (s : FenceState) (V gpuAtReturn : Nat) (d : Int)
    (s' : FenceState) (h : (WaitForFenceValue s V gpuAtReturn d).2 = some s') :
    s'.fenceValue = s.fenceValue := by
  unfold WaitForFenceValue at h
  split at h
  · split at h
    · exact (Option.some_injective _ h.symm) ▸ rfl
    · split at h
      · exact absurd h (by simp)
      · exact (Option.some_injective _ h.symm) ▸ rfl
  · exact (Option.some_injective _ h.symm) ▸ rfl

theorem parseStepW_height (argv : List String) (p : Nat × Config) :
    ((parseStepW argv p).2).g_ClientHeight = p.2.g_ClientHeight := by
  unfold parseStepW
  split <;> rfl

theorem parseStepH_height (argv : List String) (p : Nat × Config) :
    ((parseStepH argv p).2).g_ClientHeight = p.2.g_ClientHeight := by
  unfold parseStepH
  split <;> rfl

theorem parseStepWarp_height (argv : List String) (p : Nat × Config) :
    ((parseStepWarp argv p).2).g_ClientHeight = p.2.g_ClientHeight := by
  unfold parseStepWarp
  split <;> rfl

theorem parseStep_height (argv : List String) (i : Nat) (c : Config) :
    ((parseStep argv i c).2).g_ClientHeight = c.g_ClientHeight := by
  unfold parseStep
  rw [parseStepWarp_height, parseStepH_height, parseStepW_height]

theorem parseLoopAux_height (fuel : Nat) (argv : List String) :
    ∀ i c, (parseLoopAux fuel argv i c).g_ClientHeight = c.g_ClientHeight := by
  induction fuel with
  | zero => intro i c; rfl
  | succ n ih =>
    intro i c
    unfold parseLoopAux
    split
    · rw [ih, parseStep_height]
    · rfl

/-! Claim theorems. -/

/-- C1: if the consumer's last-reported completion value is already at least
the target, `WaitForFenceValue` returns immediately with no event
registration and no OS wait; otherwise it registers the event for the target
and blocks; and a repeated `wait` after a wait that completed without timing
out returns immediately with no registration, blocking or error, for any
smaller or equal target. -/
theorem wait_immediate_and_idempotent (s : FenceState) (V gpuAtReturn : Nat) (d : Int) :
    (V ≤ s.completedValue →
      WaitForFenceValue s V gpuAtReturn d =
        (⟨none, false, WaitOutcome.immediate⟩, some s)) ∧
    (s.completedValue < V →
      (WaitForFenceValue s V gpuAtReturn d).1.registeredTarget = some V ∧
      (WaitForFenceValue s V gpuAtReturn d).1.blocked = true) ∧
    (∀ s', (WaitForFenceValue s V gpuAtReturn d).2 = some s' →
      (WaitForFenceValue s V gpuAtReturn d).1.outcome ≠ WaitOutcome.timedOut →
      ∀ V' gpu' d', V' ≤ V →
        WaitForFenceValue s' V' gpu' d' =
          (⟨none, false, WaitOutcome.immediate⟩, some s')) := by
  refine ⟨?_, ?_, ?_⟩
  · intro h
    simp [WaitForFenceValue, Nat.not_lt.mpr h]
  · intro h
    unfold WaitForFenceValue
    rw [if_pos h]
    split
    · exact ⟨rfl, rfl⟩
    · split
      · exact ⟨rfl, rfl⟩
      · exact ⟨rfl, rfl⟩
  · intro s' hs' hout V' gpu' d' hV'
    unfold WaitForFenceValue at hs' hout
    by_cases h1 : s.completedValue < V
    · rw [if_pos h1] at hs' hout
      by_cases h2 : V ≤ gpuAtReturn
      · rw [if_pos h2] at hs'
        have hs'' : s' = { s with completedValue := gpuAtReturn } :=
          (Option.some_injective _ hs').symm
        have hle : V' ≤ s'.completedValue := by
          rw [hs'']; exact le_trans hV' h2
        simp [WaitForFenceValue, Nat.not_lt.mpr hle]
      · rw [if_neg h2] at hs' hout
        by_cases h3 : dwordCast d = INFINITE
        · rw [if_pos h3] at hs'
          exact absurd hs' (by simp)
        · rw [if_neg h3] at hout
          exact absurd rfl hout
    · rw [if_neg h1] at hs'
      have hs'' : s' = s := (Option.some_injective _ hs').symm
      have hle : V' ≤ s'.completedValue := by
        rw [hs'']; exact le_trans hV' (Nat.not_lt.mp h1)
      simp [WaitForFenceValue, Nat.not_lt.mpr hle]

/-- C1 witness: concrete instances — an already-satisfied wait returns
immediately, and a second wait after a satisfied blocking wait returns
immediately. -/
theorem wait_immediate_and_idempotent_witness :
    WaitForFenceValue ⟨5, 7⟩ 7 0 1 =
      (⟨none, false, WaitOutcome.immediate⟩, some ⟨5, 7⟩) ∧
    WaitForFenceValue ⟨10, 10⟩ 4 0 1 =
      (⟨none, false, WaitOutcome.immediate⟩, some ⟨10, 10⟩) := by
  constructor
  · exact (wait_immediate_and_idempotent ⟨5, 7⟩ 7 0 1).1 (by decide)
  · exact (wait_immediate_and_idempotent ⟨10, 3⟩ 10 10 1).2.2 ⟨10, 10⟩
      (by decide) (by decide) 4 0 1 (by decide)

/-- C2 counterexample: at the maximal `uint64_t` counter value the
pre-increment in `Signal` wraps to 0, so the returned value is not the
previous counter plus one and is not strictly larger than the previous
counter. -/
theorem Signal_wraps_at_counter_max :
    (Signal { fenceValue := UINT64_MOD - 1, completedValue := 0 }).1 = 0 ∧
    ¬ (UINT64_MOD - 1 : Nat) <
        (Signal { fenceValue := UINT64_MOD - 1, completedValue := 0 }).1 := by
  decide

/-- C2 amended: provided the counter does not overflow
(`fenceValue + 1 < 2^64`), every `Signal` sets the counter to its old value
plus 1 and returns that new, strictly larger value; and `WaitForFenceValue`
never changes the counter.  In general the increment is modulo 2^64. -/
theorem Signal_increments_when_no_overflow (s : FenceState)
    (h : s.fenceValue + 1 < UINT64_MOD) :
    (Signal s).1 = s.fenceValue + 1 ∧
    (Signal s).2.fenceValue = s.fenceValue + 1 ∧
    s.fenceValue < (Signal s).1 ∧
    (∀ V gpu d s', (WaitForFenceValue s V gpu d).2 = some s' →
      s'.fenceValue = s.fenceValue) := by
  have h1 : (Signal s).1 = s.fenceValue + 1 := Nat.mod_eq_of_lt h
  refine ⟨h1, ?_, ?_, ?_⟩
  · show (s.fenceValue + 1) % UINT64_MOD = s.fenceValue + 1
    exact Nat.mod_eq_of_lt h
  · rw [h1]; exact Nat.lt_succ_self _
  · intro V gpu d s' hs'
    exact wait_state_cases s V gpu d s' hs'

/-- C2 witness: with the counter at 5, `Signal` returns 6 and stores 6. -/
theorem Signal_increments_when_no_overflow_witness :
    (Signal { fenceValue := 5, completedValue := 0 }).1 = 6 ∧
    (Signal { fenceValue := 5, completedValue := 0 }).2.fenceValue = 6 := by
  have h := Signal_increments_when_no_overflow ⟨5, 0⟩ (by norm_num [UINT64_MOD])
  exact ⟨h.1, h.2.1⟩

/-- C3: `Flush` is exactly the composition `wait(signal())`: it coincides
with the spec-side `flushSpec`, the signal inside it is always fresh (the
counter unconditionally becomes its old value plus 1 modulo 2^64, regardless
of whether anything was enqueued), and the wait is performed on exactly the
value that signal returned. -/
theorem Flush_is_wait_of_signal (s : FenceState) (gpuAtReturn : Nat) :
    Flush s gpuAtReturn = flushSpec s gpuAtReturn ∧
    (Signal s).2.fenceValue = (s.fenceValue + 1) % UINT64_MOD ∧
    Flush s gpuAtReturn =
      WaitForFenceValue { s with fenceValue := (s.fenceValue + 1) % UINT64_MOD }
        ((s.fenceValue + 1) % UINT64_MOD) gpuAtReturn :=
  ⟨rfl, rfl, rfl⟩

/-- C4 counterexample: with the counter at 2^64 - 1 and the completed value
at 5, `Flush` signals the wrapped value 0, the wait returns immediately (the
consumer trivially honors the signal, no timeout is involved), yet the
completed value 5 is far below the counter value 2^64 - 1 at the time of the
call. -/
theorem Flush_completeness_cex :
    (Flush { fenceValue := UINT64_MOD - 1, completedValue := 5 } 5).2 =
      some { fenceValue := 0, completedValue := 5 } ∧
    (Flush { fenceValue := UINT64_MOD - 1, completedValue := 5 } 5).1.outcome ≠
      WaitOutcome.timedOut ∧
    ¬ (UINT64_MOD - 1 : Nat) ≤ 5 := by
  decide

theorem wait_msMax_not_timedOut (s : FenceState) (V gpuAtReturn : Nat) :
    (WaitForFenceValue s V gpuAtReturn msMax).1.outcome ≠ WaitOutcome.timedOut := by
  by_cases h1 : s.completedValue < V
  · by_cases h2 : V ≤ gpuAtReturn
    · simp [WaitForFenceValue, h1, h2]
    · simp [WaitForFenceValue, h1, h2, dwordCast_msMax]
  · simp [WaitForFenceValue, h1]

theorem wait_completed_ge (s : FenceState) (V gpuAtReturn : Nat) (d : Int)
    (s' : FenceState) (hret : (WaitForFenceValue s V gpuAtReturn d).2 = some s')
    (hout : (WaitForFenceValue s V gpuAtReturn d).1.outcome ≠ WaitOutcome.timedOut) :
    V ≤ s'.completedValue := by
  unfold WaitForFenceValue at hret hout
  by_cases h1 : s.completedValue < V
  · rw [if_pos h1] at hret hout
    by_cases h2 : V ≤ gpuAtReturn
    · rw [if_pos h2] at hret
      have hs' : { s with completedValue := gpuAtReturn } = s' :=
        Option.some_injective _ hret
      rw [← hs']
      exact h2
    · rw [if_neg h2] at hret hout
      by_cases h3 : dwordCast d = INFINITE
      · rw [if_pos h3] at hret
        exact absurd hret (by simp)
      · rw [if_neg h3] at hout
        exact absurd rfl hout
  · rw [if_neg h1] at hret
    have hs' : s = s' := Option.some_injective _ hret
    rw [← hs']
    exact Nat.not_lt.mp h1

/-- C4 amended: provided the counter does not overflow
(`fenceValue + 1 < 2^64`), whenever `Flush` returns, the completed value of
the resulting state is at least the counter value at the time of the call. -/
theorem Flush_completeness_no_overflow (s : FenceState) (gpuAtReturn : Nat)
    (h : s.fenceValue + 1 < UINT64_MOD) (s' : FenceState)
    (hret : (Flush s gpuAtReturn).2 = some s') :
    s.fenceValue ≤ s'.completedValue := by
  have hT : (s.fenceValue + 1) % UINT64_MOD = s.fenceValue + 1 := Nat.mod_eq_of_lt h
  have hret' : (WaitForFenceValue
      ⟨(s.fenceValue + 1) % UINT64_MOD, s.completedValue⟩
      ((s.fenceValue + 1) % UINT64_MOD) gpuAtReturn msMax).2 = some s' := hret
  have hout := wait_msMax_not_timedOut
      ⟨(s.fenceValue + 1) % UINT64_MOD, s.completedValue⟩
      ((s.fenceValue + 1) % UINT64_MOD) gpuAtReturn
  have hge := wait_completed_ge _ _ _ _ _ hret' hout
  rw [hT] at hge
  exact le_trans (Nat.le_succ _) hge

/-- C4 witness: flushing from counter 3 with the consumer reaching 4 returns
the state with completed value 4, which is at least 3. -/
theorem Flush_completeness_no_overflow_witness :
    (3 : Nat) ≤ (FenceState.mk 4 4).completedValue :=
  Flush_completeness_no_overflow ⟨3, 0⟩ 4 (by norm_num [UINT64_MOD]) ⟨4, 4⟩ (by decide)

/-- C5 counterexample: a wait for target 10 with timeout 1 ms on a consumer
stuck at 0 times out at the OS level, yet the call returns normally and its
caller-visible result (the function returns `void`) is identical to that of a
satisfied wait — no `TimeoutError` exists and the caller cannot distinguish
the two from the call's result. -/
theorem wait_timeout_indistinguishable :
    (WaitForFenceValue { fenceValue := 10, completedValue := 0 } 10 0 1).1.outcome =
      WaitOutcome.timedOut ∧
    waitCallerVisible { fenceValue := 10, completedValue := 0 } 10 0 1 = some () ∧
    waitCallerVisible { fenceValue := 10, completedValue := 0 } 10 0 1 =
      waitCallerVisible { fenceValue := 10, completedValue := 0 } 10 10 1 ∧
    (WaitForFenceValue { fenceValue := 10, completedValue := 0 } 10 10 1).1.outcome =
      WaitOutcome.signaled := by
  decide

/-- C5 amended: for every duration whose `DWORD` cast is not the `INFINITE`
sentinel, `WaitForFenceValue` always returns (it never blocks indefinitely),
but it returns `void`: the caller-visible result is `some ()` whether the
wait was satisfied or timed out, with no `TimeoutError`. -/
theorem wait_finite_timeout_returns (s : FenceState) (V gpuAtReturn : Nat)
    (d : Int) (h : dwordCast d ≠ INFINITE) :
    ((WaitForFenceValue s V gpuAtReturn d).2).isSome = true ∧
    waitCallerVisible s V gpuAtReturn d = some () := by
  have hsome : ((WaitForFenceValue s V gpuAtReturn d).2).isSome = true := by
    by_cases h1 : s.completedValue < V
    · by_cases h2 : V ≤ gpuAtReturn
      · simp [WaitForFenceValue, h1, h2]
      · simp [WaitForFenceValue, h1, h2, h]
    · simp [WaitForFenceValue, h1]
  refine ⟨hsome, ?_⟩
  unfold waitCallerVisible
  obtain ⟨s', hs'⟩ := Option.isSome_iff_exists.mp hsome
  rw [hs']
  rfl

/-- C5 witness: the timed-out run of the counterexample scenario returns. -/
theorem wait_finite_timeout_returns_witness :
    ((WaitForFenceValue { fenceValue := 10, completedValue := 0 } 10 0 1).2).isSome = true ∧
    waitCallerVisible { fenceValue := 10, completedValue := 0 } 10 0 1 = some () :=
  wait_finite_timeout_returns ⟨10, 0⟩ 10 0 1 (by decide)

/-- C6: when the underlying enqueue or wait-registration reports a failing
`HRESULT`, `SignalChecked` and `WaitForFenceValueChecked` fail synchronously,
propagating exactly the detected failure to the caller, with no retry and no
recovery path — the error value is the unmodified failing `HRESULT`. -/
theorem device_failures_propagate (s : FenceState) (hrS hrW : Int)
    (V gpuAtReturn : Nat) (d : Int) (h1 : FAILED hrS = true)
    (h2 : FAILED hrW = true) (h3 : s.completedValue < V) :
    (SignalChecked s hrS).2 = Except.error hrS ∧
    WaitForFenceValueChecked s V hrW gpuAtReturn d = Except.error hrW := by
  constructor
  · simp [SignalChecked, ThrowIfFailed, h1]
  · simp [WaitForFenceValueChecked, ThrowIfFailed, h2, h3]

/-- C6 witness: with a failing `HRESULT` of -1 (`E_FAIL`-like), both
operations report exactly that error. -/
theorem device_failures_propagate_witness :
    (SignalChecked ⟨0, 0⟩ (-1)).2 = Except.error (-1) ∧
    WaitForFenceValueChecked ⟨0, 0⟩ 1 (-1) 0 1 = Except.error (-1) :=
  device_failures_propagate ⟨0, 0⟩ (-1) (-1) 1 0 1 (by decide) (by decide) (by decide)

/-- C7: `WaitForFenceValue` compares the completed value against, and
registers the notification for, exactly the `fenceValue` argument passed by
the caller: the registered target is the argument itself whenever
registration happens, and the whole observable behaviour of the call is
independent of the current value of the execution counter. -/
theorem wait_targets_exact_value (s : FenceState) (V gpuAtReturn : Nat) (d : Int) :
    ((WaitForFenceValue s V gpuAtReturn d).1.registeredTarget =
      if s.completedValue < V then some V else none) ∧
    (∀ fv, (WaitForFenceValue { s with fenceValue := fv } V gpuAtReturn d).1 =
      (WaitForFenceValue s V gpuAtReturn d).1) := by
  constructor
  · by_cases h1 : s.completedValue < V
    · by_cases h2 : V ≤ gpuAtReturn
      · simp [WaitForFenceValue, h1, h2]
      · by_cases h3 : dwordCast d = INFINITE <;>
          simp [WaitForFenceValue, h1, h2, h3]
    · simp [WaitForFenceValue, h1]
  · intro fv
    by_cases h1 : s.completedValue < V
    · by_cases h2 : V ≤ gpuAtReturn
      · simp [WaitForFenceValue, h1, h2]
      · by_cases h3 : dwordCast d = INFINITE <;>
          simp [WaitForFenceValue, h1, h2, h3]
    · simp [WaitForFenceValue, h1]

/-- C8: the spec-modelled render loop advances the slot by
`(currentSlot + 1) mod N` every iteration; with N = 3, iterations 0, 1, 2, 3
use slots 0, 1, 2, 0, and the wait of iteration 3 targets exactly the fence
value stored for slot 0 at iteration 0. -/
theorem renderLoop_round_robin :
    (∀ st : LoopState, (renderIteration st).slot = (st.slot + 1) % g_NumFrames) ∧
    (runRenderLoop 4).slotsUsed = [0, 1, 2, 0] ∧
    (runRenderLoop 4).waitTargets.getD 3 0 =
      (runRenderLoop 1).frameFenceValues.getD 0 0 := by
  refine ⟨fun st => rfl, by decide, by decide⟩

/-- C9: `ParseCommandLineArgs` never writes `g_ClientHeight` — for every
command line it keeps its initial value 768 — and the `-h`/`--height`
options parse their argument into `g_ClientWidth`, exactly as `-w`/`--width`
do. -/
theorem height_never_written :
    (∀ argv : List String, (ParseCommandLineArgs argv).g_ClientHeight = 768) ∧
    ParseCommandLineArgs ["-h", "500"] =
      { g_ClientWidth := 500, g_ClientHeight := 768, g_UseWARP := false } ∧
    ParseCommandLineArgs ["--height", "300"] =
      { g_ClientWidth := 300, g_ClientHeight := 768, g_UseWARP := false } ∧
    ParseCommandLineArgs ["-w", "640"] =
      { g_ClientWidth := 640, g_ClientHeight := 768, g_UseWARP := false } := by
  refine ⟨fun argv => ?_, by decide, by decide, by decide⟩
  exact parseLoopAux_height (argv.length + 1) argv 0 initialConfig

/-- C10: with the default duration `std::chrono::milliseconds::max()`, the
timeout handed to the OS wait, `static_cast<DWORD>(duration.count())`, is
exactly 2^32 - 1 = 0xFFFFFFFF — the `INFINITE` sentinel, because
(2^63 - 1) mod 2^32 = 2^32 - 1 — so a default-timeout wait never times
out. -/
theorem default_timeout_is_infinite :
    dwordCast msMax = 4294967295 ∧
    dwordCast msMax = INFINITE ∧
    ∀ (s : FenceState) (V gpuAtReturn : Nat),
      (WaitForFenceValue s V gpuAtReturn msMax).1.outcome ≠ WaitOutcome.timedOut :=
  ⟨by decide, dwordCast_msMax, fun s V gpuAtReturn =>
    wait_msMax_not_timedOut s V gpuAtReturn⟩
